import Mathlib

/-!
Shallow embedding of `create_issues_api.py` (telecos/wgpu_playground):
a bulk GitHub-issue-creation client.  The script holds a fixed catalog
`TASKS` of task records, renders each into an issue body, and either
(a) POSTs one create-issue request per task to the GitHub REST API,
collecting created/failed ids, (b) exports the rendered catalog to a
JSON document, or (c) previews the planned issues in dry-run mode.

Python dictionaries with a fixed field set become structures; the JSON
payloads become an explicit `JsonValue` inductive; the remote HTTP call
becomes an abstract client function returning a three-case result
(successful response / `urllib.error.HTTPError` / any other exception),
matching the two `except` arms of the submission loop; observable side
effects (remote calls, file writes, printed lines) are accumulated in an
explicit trace.  The module-global `TASKS` list is passed explicitly to
the functions that read it, as the spec directs for reimplementations.
-/

namespace CreateIssuesApi

/-- One entry of the `TASKS` catalog: a dict with keys
`id`, `title`, `description`, `labels`. -/
structure Task where
  id : String
  title : String
  description : String
  labels : List String
deriving Repr, DecidableEq

/-- JSON values, as far as this script builds them. -/
inductive JsonValue where
  | str (s : String)
  | num (n : Nat)
  | arr (elems : List JsonValue)
  | obj (fields : List (String × JsonValue))

/-- The keys of a JSON object (in order); `[]` on non-objects. -/
def JsonValue.objKeys : JsonValue → List String
  | .obj fields => fields.map Prod.fst
  | _ => []

/-- Look up a key in a JSON object; `none` on non-objects. -/
def JsonValue.get (j : JsonValue) (k : String) : Option JsonValue :=
  match j with
  | .obj fields => (fields.find? (fun kv => kv.1 == k)).map Prod.snd
  | _ => none

/-- `create_issue_body(task)`: the f-string template, with the task's
description, a metadata block (id, comma-joined labels, a constant
estimate), a constant dependency note and a constant acceptance-criteria
checklist. -/
def create_issue_body (task : Task) : String :=
  task.description ++
  "\n\n## Task Metadata\n- **Task ID**: " ++ task.id ++
  "\n- **Category**: " ++ String.intercalate ", " task.labels ++
  "\n- **Estimated Time**: 1-4 hours\n\n## Dependencies\nThis task may depend on completion of previous tasks in its category. Please check the project roadmap for dependencies.\n\n## Acceptance Criteria\n- Implementation follows Rust and WebGPU best practices\n- Code includes appropriate error handling\n- Changes are tested (unit/integration tests as applicable)\n- Documentation is updated if needed\n- Cross-platform compatibility maintained (native + WASM)\n"

/-- The `issue_data` dict built inside the submission loop:
`{"title": f"{id}: {title}", "body": create_issue_body(task), "labels": labels}`. -/
def issue_data (task : Task) : JsonValue :=
  .obj [("title", .str (task.id ++ ": " ++ task.title)),
        ("body", .str (create_issue_body task)),
        ("labels", .arr (task.labels.map JsonValue.str))]

/-- A `urllib.request.Request` as constructed in the loop: url, JSON data,
the three headers, and the method. -/
structure Request where
  url : String
  data : JsonValue
  authorization : String
  accept : String
  contentType : String
  method : String

/-- The request the loop builds for one task:
POST of `issue_data task` to `https://api.github.com/repos/{repo}/issues`
with bearer auth, the v3 accept header and a JSON content type. -/
def issueRequest (token repo : String) (task : Task) : Request :=
  Request.mk ("https://api.github.com/repos/" ++ repo ++ "/issues")
    (issue_data task)
    ("Bearer " ++ token)
    "application/vnd.github.v3+json"
    "application/json"
    "POST"

/-- Outcome of one `urllib.request.urlopen` call, abstracting the remote
service: a successful response whose JSON body has field `number`, an
`HTTPError` (non-2xx status) with code/reason/body, or any other
exception with its message. -/
inductive CallResult where
  | response (number : Nat)
  | httpError (code : Nat) (reason : String) (body : String)
  | exn (msg : String)
deriving Repr, DecidableEq

/-- The two accumulators of `create_issues_with_api`:
`created` and `failed` are the lists of task ids appended during the run. -/
structure RunReport where
  created : List String
  failed : List String
deriving Repr, DecidableEq

/-- An observable side effect of the script: a remote HTTP call, a file
write of a JSON document, or one printed line. -/
inductive Effect where
  | remoteCall (req : Request)
  | fileWrite (filename : String) (content : JsonValue)
  | printed (line : String)

/-- One iteration of the `for task in TASKS` loop of
`create_issues_with_api`: build the request, invoke the remote call, and
on success append the id to `created` (printing the created number),
while on `HTTPError` or any other exception append the id to `failed`
(printing the diagnostic lines).  State is the report so far plus the
effect trace. -/
def process_task (client : Request → CallResult) (token repo : String)
    (st : RunReport × List Effect) (task : Task) : RunReport × List Effect :=
  let req := issueRequest token repo task
  match client req with
  | .response n =>
      (RunReport.mk (st.1.created ++ [task.id]) st.1.failed,
       st.2 ++ [.remoteCall req,
                .printed ("✓ Created: " ++ task.id ++ " - #" ++ toString n)])
  | .httpError code reason body =>
      (RunReport.mk st.1.created (st.1.failed ++ [task.id]),
       st.2 ++ [.remoteCall req,
                .printed ("✗ Failed: " ++ task.id ++ " - " ++ toString code ++ " " ++ reason),
                .printed ("  Error: " ++ body)])
  | .exn msg =>
      (RunReport.mk st.1.created (st.1.failed ++ [task.id]),
       st.2 ++ [.remoteCall req,
                .printed ("✗ Failed: " ++ task.id ++ " - " ++ msg)])

/-- `create_issues_with_api(token, repo)`: run the loop over the catalog
(the module-global `TASKS`, passed explicitly here), print the summary
line and, if any task failed, the failed-ids line, and return
`len(failed) == 0`.  The report and effect trace are exposed alongside
the returned Bool for specification. -/
def create_issues_with_api (client : Request → CallResult)
    (token repo : String) (tasks : List Task) :
    Bool × RunReport × List Effect :=
  let st := tasks.foldl (process_task client token repo) (RunReport.mk [] [], [])
  let effs := st.2 ++
    [.printed ("\nSummary: " ++ toString st.1.created.length ++ " created, " ++
               toString st.1.failed.length ++ " failed")]
  let effs := if st.1.failed.isEmpty then effs
    else effs ++ [.printed ("Failed tasks: " ++ String.intercalate ", " st.1.failed)]
  (st.1.failed.length == 0, st.1, effs)

/-- One element of the `"tasks"` list built by `export_to_json`:
`{"id": ..., "title": f"{id}: {title}", "body": create_issue_body(task), "labels": ...}`. -/
def exportEntry (task : Task) : JsonValue :=
  .obj [("id", .str task.id),
        ("title", .str (task.id ++ ": " ++ task.title)),
        ("body", .str (create_issue_body task)),
        ("labels", .arr (task.labels.map JsonValue.str))]

/-- The `data` dict of `export_to_json`: the hard-coded repository string
and one entry per catalog task, in catalog order. -/
def export_doc (tasks : List Task) : JsonValue :=
  .obj [("repository", .str "telecos/wgpu_playground"),
        ("tasks", .arr (tasks.map exportEntry))]

/-- `export_to_json(filename)`: dump `export_doc` to the file and print
the `Exported {len(TASKS)} tasks to {filename}` line.  The Python
function has no `return` statement, so its value is `None`, modelled as
the `Option Nat` component being `none` (a returned count would be
`some n`). -/
def export_to_json (filename : String) (tasks : List Task) :
    List Effect × Option Nat :=
  ([.fileWrite filename (export_doc tasks),
    .printed ("Exported " ++ toString tasks.length ++ " tasks to " ++ filename)],
   none)

/-- The parsed CLI arguments: `--token`, `--repo` (defaulted by argparse
to "telecos/wgpu_playground"), `--export`, `--dry-run`. -/
structure Args where
  token : Option String
  repo : String
  exportArg : Option String
  dry_run : Bool
deriving Repr, DecidableEq

/-- The dry-run preview line printed per task:
`  - {id}: {title} [{', '.join(labels)}]`. -/
def previewLine (task : Task) : String :=
  "  - " ++ task.id ++ ": " ++ task.title ++ " [" ++
  String.intercalate ", " task.labels ++ "]"

/-- The four usage lines printed when neither `--token` nor `--export`
nor `--dry-run` is given. -/
def usageLines : List Effect :=
  [.printed "Error: Either provide --token for creating issues or --export for exporting to JSON",
   .printed "Usage:",
   .printed "  python3 create_issues_api.py --token YOUR_GITHUB_TOKEN [--repo owner/name]",
   .printed "  python3 create_issues_api.py --export issues_data.json",
   .printed "  python3 create_issues_api.py --dry-run"]

/-- The `__main__` dispatch: `--export` runs the exporter and falls off
the end (exit 0); else `--dry-run` prints the header and one preview
line per task (exit 0); else `--token` runs the batch and exits 0 iff it
returned true; else print usage and exit 1.  Returns the effect trace
and the process exit status. -/
def mainDispatch (client : Request → CallResult) (args : Args)
    (tasks : List Task) : List Effect × Nat :=
  match args.exportArg with
  | some f => ((export_to_json f tasks).1, 0)
  | none =>
    if args.dry_run then
      (.printed ("Would create " ++ toString tasks.length ++ " issues:") ::
         tasks.map (fun t => .printed (previewLine t)), 0)
    else
      match args.token with
      | some tok =>
        let r := create_issues_with_api client tok args.repo tasks
        (r.2.2, if r.1 then 0 else 1)
      | none => (usageLines, 1)

/-- The module-global `TASKS` catalog: all 79 task dicts, verbatim. -/
def TASKS : List Task := [
  Task.mk "TASK-023" "Implement render pass with all operations"
    "Create render pass encoder supporting color attachments, depth-stencil attachments, load/store operations, clear values. Implement draw commands (draw, drawIndexed, drawIndirect, drawIndexedIndirect)."
    ["webgpu-api", "core-functionality"],
  Task.mk "TASK-024" "Implement compute pass operations"
    "Create compute pass encoder with dispatch operations (dispatch, dispatchIndirect). Support pipeline and bind group setting."
    ["webgpu-api", "core-functionality"],
  Task.mk "TASK-025" "Implement buffer-to-buffer and buffer-texture copies"
    "Implement copyBufferToBuffer, copyBufferToTexture, and copyTextureToBuffer operations in command encoder. Handle size and offset validation."
    ["webgpu-api", "core-functionality"],
  Task.mk "TASK-026" "Implement texture-to-texture copy operations"
    "Implement copyTextureToTexture operations supporting different mip levels, array layers, and aspects."
    ["webgpu-api", "core-functionality"],
  Task.mk "TASK-027" "Implement GPU query sets for timestamps and statistics"
    "Create query set creation supporting occlusion and timestamp queries. Implement query result resolution and retrieval."
    ["webgpu-api", "core-functionality"],
  Task.mk "TASK-028" "Implement surface/canvas context management"
    "Create canvas context configuration for render targets. Handle surface creation, configuration (format, present mode, alpha mode), and getCurrentTexture operations."
    ["webgpu-api", "core-functionality"],
  Task.mk "TASK-029" "Implement vertex buffer binding and layouts"
    "Create vertex buffer state configuration with multiple buffer slots, step modes (vertex, instance), and attribute formats. Support setVertexBuffer operations in render passes."
    ["webgpu-api", "core-functionality"],
  Task.mk "TASK-030" "Implement index buffer binding"
    "Implement index buffer setup with uint16 and uint32 formats. Support setIndexBuffer operations in render passes."
    ["webgpu-api", "core-functionality"],
  Task.mk "TASK-031" "Implement render bundles for command reuse"
    "Create render bundle encoder for recording reusable draw commands. Support render bundle execution in render passes for optimization."
    ["webgpu-api", "core-functionality"],
  Task.mk "TASK-032" "Implement comprehensive error handling"
    "Set up error scopes, validation errors, out-of-memory errors, and internal errors handling. Implement error callbacks and logging throughout the API."
    ["webgpu-api", "core-functionality"],
  Task.mk "TASK-040" "Evaluate and select GUI framework"
    "Research and select appropriate Rust GUI framework (egui, iced, or custom imgui-wgpu). Consider ease of integration with wgpu, WASM support, and feature richness. Document decision rationale."
    ["ui", "gui"],
  Task.mk "TASK-041" "Create main application window with GUI framework"
    "Set up main application window using selected GUI framework. Integrate with winit event loop. Create basic layout with menu bar, sidebar, and main canvas area."
    ["ui", "gui"],
  Task.mk "TASK-042" "Create UI for GPU adapter selection"
    "Build UI panel displaying available GPU adapters with their properties (name, vendor, device type). Allow user to select adapter and configure power preference options."
    ["ui", "gui"],
  Task.mk "TASK-043" "Create UI for device limits and features"
    "Build UI panel showing available device features and limits. Allow users to enable/disable features and adjust limits before device creation."
    ["ui", "gui"],
  Task.mk "TASK-044" "Create UI panel for buffer configuration"
    "Build interface for creating GPU buffers with controls for size, usage flags (checkboxes for each flag), label, and mapped-at-creation option. Include validation and creation button."
    ["ui", "gui"],
  Task.mk "TASK-045" "Create UI panel for texture configuration"
    "Build interface for creating textures with controls for dimensions, format (dropdown), mip levels, sample count, usage flags, and label. Support all texture formats from the spec."
    ["ui", "gui"],
  Task.mk "TASK-046" "Create UI panel for sampler settings"
    "Build sampler configuration interface with controls for address modes (U, V, W), filter modes (mag, min, mipmap), LOD clamp, compare function, and anisotropy."
    ["ui", "gui"],
  Task.mk "TASK-047" "Create WGSL shader editor with syntax highlighting"
    "Implement shader editor panel with WGSL syntax highlighting, line numbers, and compilation error display. Support loading from file and inline editing. Show compilation results."
    ["ui", "gui"],
  Task.mk "TASK-048" "Create UI for bind group layout configuration"
    "Build interface for defining bind group layouts with dynamic entry addition. For each entry: binding number, visibility (vertex/fragment/compute checkboxes), and resource type configuration."
    ["ui", "gui"],
  Task.mk "TASK-049" "Create UI for bind group resource binding"
    "Build interface for creating bind groups by selecting layout and binding resources. Display available resources (buffers, textures, samplers) and allow assignment to binding slots."
    ["ui", "gui"],
  Task.mk "TASK-050" "Create UI for render pipeline configuration"
    "Build comprehensive render pipeline editor with sections for vertex state, primitive state (topology, culling, front face), depth-stencil, multisample, and fragment state. Include preset configurations."
    ["ui", "gui"],
  Task.mk "TASK-051" "Create UI for compute pipeline configuration"
    "Build compute pipeline editor with shader module selection, entry point input, and pipeline layout configuration."
    ["ui", "gui"],
  Task.mk "TASK-052" "Create UI for render pass configuration"
    "Build interface for configuring render pass with color attachments (load/store ops, clear color), depth-stencil attachment, and timestamp writes."
    ["ui", "gui"],
  Task.mk "TASK-053" "Create UI for draw command parameters"
    "Build interface for executing draw commands with controls for vertex count, instance count, first vertex/instance, and indexed drawing parameters."
    ["ui", "gui"],
  Task.mk "TASK-054" "Create UI for compute dispatch configuration"
    "Build interface for compute dispatch with workgroup count inputs (X, Y, Z dimensions) and indirect dispatch buffer selection."
    ["ui", "gui"],
  Task.mk "TASK-055" "Create resource inspector panel"
    "Build panel displaying all created resources (buffers, textures, pipelines) with their properties, current state, and memory usage. Support filtering and searching."
    ["ui", "gui"],
  Task.mk "TASK-056" "Create main rendering canvas with controls"
    "Implement main canvas area for WebGPU rendering output. Add controls for clear color, canvas size, and screenshot capture. Support mouse interaction for camera control in 3D examples."
    ["ui", "gui"],
  Task.mk "TASK-057" "Create command recording and playback panel"
    "Build panel showing recorded GPU commands with timeline. Support command inspection, replay, and export. Display command buffer contents."
    ["ui", "gui"],
  Task.mk "TASK-058" "Create example gallery and loader"
    "Build UI for browsing and loading preset examples (triangle, cube, texture mapping, compute shader). Include example descriptions and source code display."
    ["ui", "gui"],
  Task.mk "TASK-059" "Create performance metrics panel"
    "Build panel displaying FPS, frame time, GPU memory usage, and command buffer statistics. Support performance graphs and profiling data."
    ["ui", "gui"],
  Task.mk "TASK-060" "Create error and warning console"
    "Build console panel displaying WebGPU errors, warnings, and validation messages. Support filtering by severity and clearing. Include error details and stack traces."
    ["ui", "gui"],
  Task.mk "TASK-070" "Create basic triangle rendering example"
    "Implement classic triangle example with vertex buffer, simple shader, and render pipeline. Demonstrate basic rendering setup and draw command."
    ["examples", "documentation"],
  Task.mk "TASK-071" "Create texture mapping example"
    "Implement textured quad example demonstrating texture creation, sampler configuration, and texture binding in shaders."
    ["examples", "documentation"],
  Task.mk "TASK-072" "Create rotating 3D cube example"
    "Implement 3D cube with rotation using uniform buffers for transformation matrices. Demonstrate depth testing and index buffers."
    ["examples", "documentation"],
  Task.mk "TASK-073" "Create basic compute shader example"
    "Implement compute shader example performing simple calculations (e.g., array processing). Demonstrate compute pipeline and buffer sharing between compute and render."
    ["examples", "documentation"],
  Task.mk "TASK-074" "Create instanced rendering example"
    "Implement instanced rendering example with multiple objects. Demonstrate instance buffers and per-instance attributes."
    ["examples", "documentation"],
  Task.mk "TASK-075" "Create render-to-texture example"
    "Implement example rendering to texture and using it in subsequent render pass. Demonstrate framebuffer usage and multi-pass rendering."
    ["examples", "documentation"],
  Task.mk "TASK-076" "Create multisampling example"
    "Implement example using multisampling for anti-aliasing. Demonstrate MSAA render targets and resolve operations."
    ["examples", "documentation"],
  Task.mk "TASK-080" "Configure unit testing infrastructure"
    "Set up Rust unit testing framework with test modules in each crate. Configure test organization following Rust best practices. Add test utilities and helper functions."
    ["testing", "quality"],
  Task.mk "TASK-081" "Create unit tests for buffer operations"
    "Write unit tests for buffer creation, mapping, writing, and reading. Test all usage flag combinations and error conditions."
    ["testing", "quality"],
  Task.mk "TASK-082" "Create unit tests for texture operations"
    "Write unit tests for texture creation, format support, dimension validation, and texture operations. Test error conditions and edge cases."
    ["testing", "quality"],
  Task.mk "TASK-083" "Create unit tests for pipeline creation"
    "Write unit tests for render and compute pipeline creation. Test valid and invalid configurations, shader compilation, and pipeline state."
    ["testing", "quality"],
  Task.mk "TASK-084" "Create unit tests for command encoding"
    "Write unit tests for command encoder operations, render/compute pass recording, and copy operations. Validate command sequences."
    ["testing", "quality"],
  Task.mk "TASK-085" "Create integration tests for complete workflows"
    "Write integration tests for complete rendering workflows (setup → encode → submit). Test multiple examples end-to-end."
    ["testing", "quality"],
  Task.mk "TASK-086" "Configure headless GPU testing"
    "Set up headless testing using software adapter or offscreen rendering. Enable tests to run in CI without display. Configure appropriate backends for testing."
    ["testing", "quality"],
  Task.mk "TASK-087" "Create visual regression test framework"
    "Set up visual regression testing by capturing rendered output and comparing with reference images. Use image comparison libraries. Store reference images in repository."
    ["testing", "quality"],
  Task.mk "TASK-088" "Create GUI interaction tests"
    "Write tests for GUI components and user interactions. Test UI state management, input handling, and rendering output. Mock user input events."
    ["testing", "quality"],
  Task.mk "TASK-089" "Create performance benchmark suite"
    "Set up criterion.rs or similar benchmarking framework. Create benchmarks for critical paths (buffer operations, draw calls, pipeline creation). Configure benchmark CI jobs."
    ["testing", "quality"],
  Task.mk "TASK-090" "Create WASM-specific tests"
    "Write tests specifically for WASM build. Test web-sys integration, wasm-bindgen exports, and browser-specific functionality. Configure wasm-pack test."
    ["testing", "quality"],
  Task.mk "TASK-091" "Configure code coverage tools"
    "Set up tarpaulin or llvm-cov for test coverage reporting. Configure coverage thresholds and reporting format. Integrate with CI."
    ["testing", "quality"],
  Task.mk "TASK-092" "Create tests for error conditions"
    "Write tests validating error handling for invalid operations, out-of-bounds access, device lost scenarios, and validation errors."
    ["testing", "quality"],
  Task.mk "TASK-100" "Create base GitHub Actions CI configuration"
    "Set up .github/workflows directory with main CI workflow. Configure triggers (push, PR) and basic job structure. Set up caching for cargo dependencies."
    ["ci-cd", "devops"],
  Task.mk "TASK-101" "Create CI jobs for native builds"
    "Configure CI jobs for building on Linux, macOS, and Windows. Set up Rust toolchain installation and build matrix. Test all native targets."
    ["ci-cd", "devops"],
  Task.mk "TASK-102" "Create CI jobs for WASM builds"
    "Configure wasm-pack in CI. Create jobs for building and testing WASM target. Validate web bundle creation and deployment artifacts."
    ["ci-cd", "devops"],
  Task.mk "TASK-103" "Create CI jobs for code quality checks"
    "Set up clippy for linting with strict rules. Configure rustfmt checks for code formatting. Fail CI on warnings or formatting issues."
    ["ci-cd", "devops"],
  Task.mk "TASK-104" "Create CI jobs for running test suite"
    "Configure jobs running unit tests, integration tests, and doc tests. Set up test reporting and failure notifications. Run tests on all platforms."
    ["ci-cd", "devops"],
  Task.mk "TASK-105" "Create CI jobs for security scanning"
    "Set up cargo-audit for dependency vulnerability scanning. Configure cargo-deny for license and security policy enforcement. Run security checks on schedule and PRs."
    ["ci-cd", "devops"],
  Task.mk "TASK-106" "Create CI jobs for documentation building"
    "Configure cargo doc generation in CI. Build and publish documentation to GitHub Pages. Validate documentation completeness and links."
    ["ci-cd", "devops"],
  Task.mk "TASK-107" "Create CI jobs for performance benchmarks"
    "Set up benchmark running on schedule or manual trigger. Compare results against baseline. Store and visualize benchmark history."
    ["ci-cd", "devops"],
  Task.mk "TASK-108" "Create CI jobs for release artifacts"
    "Configure artifact creation for releases: native binaries, WASM bundles, and documentation. Set up automatic publishing to GitHub Releases."
    ["ci-cd", "devops"],
  Task.mk "TASK-109" "Create deployment workflow for WASM demo"
    "Set up automatic deployment of WASM build to GitHub Pages or other hosting. Deploy on main branch updates. Configure custom domain if applicable."
    ["ci-cd", "devops"],
  Task.mk "TASK-110" "Configure Dependabot or similar for updates"
    "Set up automated dependency update PRs. Configure update frequency and grouping. Add auto-merge for minor updates passing CI."
    ["ci-cd", "devops"],
  Task.mk "TASK-111" "Create comprehensive PR check workflow"
    "Configure required status checks for PRs: builds, tests, linting, formatting. Set up PR labeling based on changes. Configure branch protection rules."
    ["ci-cd", "devops"],
  Task.mk "TASK-112" "Create CI jobs for coverage reporting"
    "Configure coverage collection in CI. Upload results to Codecov or similar. Add coverage badges to README. Set minimum coverage thresholds."
    ["ci-cd", "devops"],
  Task.mk "TASK-120" "Document system architecture and design"
    "Create docs/architecture.md documenting overall system design, module structure, data flow, and key design decisions. Include diagrams if applicable."
    ["documentation"],
  Task.mk "TASK-121" "Document public API with examples"
    "Write comprehensive rustdoc comments for all public APIs. Include usage examples, parameter descriptions, and return value documentation. Document error conditions."
    ["documentation"],
  Task.mk "TASK-122" "Create end-user documentation"
    "Write user guide covering GUI usage, example workflows, and common tasks. Include screenshots and step-by-step tutorials."
    ["documentation"],
  Task.mk "TASK-123" "Create developer/contributor guide"
    "Write guide for developers contributing to the project. Cover development setup, coding standards, PR process, and testing requirements."
    ["documentation"],
  Task.mk "TASK-124" "Document WGSL shader development"
    "Create guide for writing WGSL shaders in the playground. Cover shader structure, built-in functions, and debugging techniques."
    ["documentation"],
  Task.mk "TASK-125" "Document WebGPU API coverage"
    "Create comprehensive document mapping WebGPU API features to playground implementation. Mark implemented, partial, and missing features."
    ["documentation"],
  Task.mk "TASK-130" "Add hot reload for shader changes"
    "Implement file watching for shader files and automatic reload on changes. Update pipelines dynamically without restarting application."
    ["enhancement", "nice-to-have"],
  Task.mk "TASK-131" "Add saving and loading of playground state"
    "Implement serialization of current playground state (resources, pipeline configs, shaders). Support loading saved states. Use JSON or binary format."
    ["enhancement", "nice-to-have"],
  Task.mk "TASK-132" "Add standalone code generation"
    "Generate standalone Rust code from current playground configuration. Export as buildable cargo project. Include all shaders and resources."
    ["enhancement", "nice-to-have"],
  Task.mk "TASK-133" "Add theme switching support"
    "Implement dark and light UI themes. Add theme selector in settings. Persist theme preference."
    ["enhancement", "nice-to-have"],
  Task.mk "TASK-134" "Add sharing and collaboration features"
    "Implement URL-based state sharing (encode state in URL). Optional: Add cloud save for sharing configurations. Generate shareable links."
    ["enhancement", "nice-to-have"],
  Task.mk "TASK-135" "Add texture loading from files"
    "Implement texture loading from image files (PNG, JPG, etc.). Support drag-and-drop. Include image decoding libraries. Allow texture export."
    ["enhancement", "nice-to-have"],
  Task.mk "TASK-136" "Add 3D model import support"
    "Implement loading of 3D models (glTF, OBJ). Parse model data into buffers. Support materials and textures from model files."
    ["enhancement", "nice-to-have"],
  Task.mk "TASK-137" "Add GPU debugging utilities"
    "Implement debugging tools: buffer inspector (view buffer contents), texture inspector (visualize textures), and pipeline debugger."
    ["enhancement", "nice-to-have"],
  Task.mk "TASK-138" "Add mobile device support"
    "Optimize UI for mobile screens. Test on mobile browsers with WebGPU support. Implement touch controls and responsive layout."
    ["enhancement", "nice-to-have"],
  Task.mk "TASK-139" "Add accessibility improvements"
    "Implement keyboard navigation for all UI elements. Add ARIA labels. Support screen readers. Ensure sufficient contrast ratios."
    ["enhancement", "nice-to-have"]]

/-- The final report of one batch run: the pair of id lists accumulated
by the `for task in TASKS` loop of `create_issues_with_api`, starting
from empty accumulators. -/
def runReport (client : Request → CallResult) (token repo : String)
    (tasks : List Task) : RunReport :=
  (tasks.foldl (process_task client token repo) (RunReport.mk [] [], [])).1

/-- Extract the request of a remote-call effect. -/
def remoteOf : Effect → Option Request
  | .remoteCall req => some req
  | _ => none

/-- A remote service that accepts every request, assigning issue
number 42. -/
def clientOk : Request → CallResult := fun _ => .response 42

/-- A remote service that rejects every request with HTTP 422. -/
def clientReject : Request → CallResult :=
  fun _ => .httpError 422 "Unprocessable Entity" "validation failed"

/-- A sample task record (the first entry of the catalog). -/
def sampleTask : Task :=
  Task.mk "TASK-023" "Implement render pass with all operations"
    "Create render pass encoder supporting color attachments, depth-stencil attachments, load/store operations, clear values. Implement draw commands (draw, drawIndexed, drawIndirect, drawIndexedIndirect)."
    ["webgpu-api", "core-functionality"]

/-- A second sample task agreeing with `sampleTask` except in `title`. -/
def sampleTaskRetitled : Task :=
  Task.mk "TASK-023" "A completely different headline"
    "Create render pass encoder supporting color attachments, depth-stencil attachments, load/store operations, clear values. Implement draw commands (draw, drawIndexed, drawIndirect, drawIndexedIndirect)."
    ["webgpu-api", "core-functionality"]

/-- Starting the loop from any accumulator state appends that run's
fresh `created`/`failed` contributions after the initial ones: the
per-task appends depend only on the task and the client's answer, never
on the accumulated state. -/
lemma foldl_report_shift (client : Request → CallResult) (token repo : String) :
    ∀ (tasks : List Task) (st : RunReport × List Effect),
      ((tasks.foldl (process_task client token repo) st).1.created
          = st.1.created ++ (runReport client token repo tasks).created)
      ∧ ((tasks.foldl (process_task client token repo) st).1.failed
          = st.1.failed ++ (runReport client token repo tasks).failed) := by
  intro tasks
  induction tasks with
  | nil => intro st; simp [runReport]
  | cons t ts ih =>
    intro st
    have hrep : runReport client token repo (t :: ts)
        = (ts.foldl (process_task client token repo)
            (process_task client token repo (RunReport.mk [] [], []) t)).1 := rfl
    rw [List.foldl_cons, hrep]
    cases h : client (issueRequest token repo t) with
    | response n =>
      constructor
      · rw [(ih _).1, (ih _).1]
        simp [process_task, h]
      · rw [(ih _).2, (ih _).2]
        simp [process_task, h]
    | httpError code reason body =>
      constructor
      · rw [(ih _).1, (ih _).1]
        simp [process_task, h]
      · rw [(ih _).2, (ih _).2]
        simp [process_task, h]
    | exn msg =>
      constructor
      · rw [(ih _).1, (ih _).1]
        simp [process_task, h]
      · rw [(ih _).2, (ih _).2]
        simp [process_task, h]

/-- The report of a concatenated run splits componentwise. -/
lemma runReport_append (client : Request → CallResult) (token repo : String)
    (xs ys : List Task) :
    runReport client token repo (xs ++ ys)
      = RunReport.mk
          ((runReport client token repo xs).created ++ (runReport client token repo ys).created)
          ((runReport client token repo xs).failed ++ (runReport client token repo ys).failed) := by
  have h := foldl_report_shift client token repo ys
      (xs.foldl (process_task client token repo) (RunReport.mk [] [], []))
  have hc : (runReport client token repo (xs ++ ys)).created
      = (runReport client token repo xs).created ++ (runReport client token repo ys).created := by
    show ((xs ++ ys).foldl (process_task client token repo) (RunReport.mk [] [], [])).1.created = _
    rw [List.foldl_append]
    exact h.1
  have hf : (runReport client token repo (xs ++ ys)).failed
      = (runReport client token repo xs).failed ++ (runReport client token repo ys).failed := by
    show ((xs ++ ys).foldl (process_task client token repo) (RunReport.mk [] [], [])).1.failed = _
    rw [List.foldl_append]
    exact h.2
  cases hr : runReport client token repo (xs ++ ys) with
  | mk c f =>
    rw [hr] at hc hf
    simp only at hc hf
    rw [hc, hf]

/-- A one-task run puts the id in `created` when the client answers with
a response, and in `failed` on `HTTPError` or any other exception. -/
lemma runReport_single (client : Request → CallResult) (token repo : String) (t : Task) :
    runReport client token repo [t]
      = match client (issueRequest token repo t) with
        | .response _ => RunReport.mk [t.id] []
        | _ => RunReport.mk [] [t.id] := by
  cases h : client (issueRequest token repo t) <;>
    simp [runReport, process_task, h]

/-- One loop iteration contributes the task's id to exactly one of the
two report components, according to the client's answer. -/
lemma runReport_cons (client : Request → CallResult) (token repo : String)
    (t : Task) (ts : List Task) :
    runReport client token repo (t :: ts)
      = match client (issueRequest token repo t) with
        | .response _ =>
            RunReport.mk (t.id :: (runReport client token repo ts).created)
              (runReport client token repo ts).failed
        | _ =>
            RunReport.mk (runReport client token repo ts).created
              (t.id :: (runReport client token repo ts).failed) := by
  have happ := runReport_append client token repo [t] ts
  simp only [List.singleton_append] at happ
  rw [happ, runReport_single]
  cases h : client (issueRequest token repo t) <;> simp

/-- The batch's report is the loop's accumulator pair. -/
lemma create_report_eq (client : Request → CallResult) (token repo : String)
    (tasks : List Task) :
    (create_issues_with_api client token repo tasks).2.1
      = runReport client token repo tasks := by
  unfold create_issues_with_api
  cases h : (tasks.foldl (process_task client token repo) (RunReport.mk [] [], [])).1.failed.isEmpty <;>
    simp [h, runReport]

/-- Each input id is counted exactly as often by `created` and `failed`
together as it occurs among the input ids. -/
lemma runReport_count (client : Request → CallResult) (token repo : String)
    (s : String) :
    ∀ tasks : List Task,
      (runReport client token repo tasks).created.count s
        + (runReport client token repo tasks).failed.count s
        = (tasks.map Task.id).count s := by
  intro tasks
  induction tasks with
  | nil => simp [runReport]
  | cons t ts ih =>
    rw [runReport_cons]
    cases h : client (issueRequest token repo t) <;>
      by_cases hts : t.id = s <;>
      simp [List.count_cons, hts, ← ih] <;> omega

/-- The two report components together have one entry per input task. -/
lemma runReport_length (client : Request → CallResult) (token repo : String) :
    ∀ tasks : List Task,
      (runReport client token repo tasks).created.length
        + (runReport client token repo tasks).failed.length
        = tasks.length := by
  intro tasks
  induction tasks with
  | nil => simp [runReport]
  | cons t ts ih =>
    rw [runReport_cons]
    cases h : client (issueRequest token repo t) <;> simp <;> omega

/-- The loop's effect trace contains exactly one remote call per task,
with the task's request, in input order. -/
lemma foldl_effects_remote (client : Request → CallResult) (token repo : String) :
    ∀ (tasks : List Task) (st : RunReport × List Effect),
      ((tasks.foldl (process_task client token repo) st).2).filterMap remoteOf
        = st.2.filterMap remoteOf ++ tasks.map (issueRequest token repo) := by
  intro tasks
  induction tasks with
  | nil => intro st; simp
  | cons t ts ih =>
    intro st
    rw [List.foldl_cons, ih]
    cases h : client (issueRequest token repo t) <;>
      simp [process_task, h, remoteOf]

/-- The batch's full trace (loop trace plus summary prints) contains
exactly one remote call per task, in input order. -/
lemma create_remote_calls (client : Request → CallResult) (token repo : String)
    (tasks : List Task) :
    (create_issues_with_api client token repo tasks).2.2.filterMap remoteOf
      = tasks.map (issueRequest token repo) := by
  unfold create_issues_with_api
  cases h : (tasks.foldl (process_task client token repo) (RunReport.mk [] [], [])).1.failed.isEmpty <;>
    simp [h, List.filterMap_append, remoteOf,
      foldl_effects_remote client token repo tasks (RunReport.mk [] [], [])]

/-- C1: for every batch run over an input list of task records, the
`created` and `failed` sequences of the run report together contain one
entry per input task (`len(created) + len(failed) = len(input)`), and
every id occurs in `created` and `failed` together exactly as often as
it occurs among the input ids — so no id is skipped or double-counted,
and with the catalog's unique ids each input id lands in exactly one of
the two sequences. -/
theorem batch_partition_of_input_ids (client : Request → CallResult)
    (token repo : String) (tasks : List Task) :
    ((create_issues_with_api client token repo tasks).2.1.created.length
        + (create_issues_with_api client token repo tasks).2.1.failed.length
        = tasks.length)
    ∧ ∀ s : String,
        (create_issues_with_api client token repo tasks).2.1.created.count s
          + (create_issues_with_api client token repo tasks).2.1.failed.count s
          = (tasks.map Task.id).count s := by
  rw [create_report_eq]
  exact ⟨runReport_length client token repo tasks,
    fun s => runReport_count client token repo s tasks⟩

/-- C2: a per-item failure of the remote create-issue call — HTTP error
or any other exception — never aborts the batch, is never retried, and
never propagates: the failing task contributes exactly its id, appended
to `failed`, and the remaining tasks are processed just as they would be
on their own. -/
theorem per_item_failure_recovered (client : Request → CallResult)
    (token repo : String) (t : Task) (pre post : List Task)
    (h : ∀ n, client (issueRequest token repo t) ≠ CallResult.response n) :
    ((create_issues_with_api client token repo (pre ++ t :: post)).2.1.created
        = (create_issues_with_api client token repo pre).2.1.created
          ++ (create_issues_with_api client token repo post).2.1.created)
    ∧ ((create_issues_with_api client token repo (pre ++ t :: post)).2.1.failed
        = (create_issues_with_api client token repo pre).2.1.failed
          ++ t.id :: (create_issues_with_api client token repo post).2.1.failed) := by
  simp only [create_report_eq]
  rw [runReport_append, runReport_cons]
  cases hc : client (issueRequest token repo t) with
  | response n => exact absurd hc (h n)
  | httpError code reason body => simp
  | exn msg => simp

/-- Witness for C2: a client rejecting everything with HTTP 422, one
task, empty surrounding batch. -/
theorem per_item_failure_recovered_witness :
    (∀ n, clientReject (issueRequest "token0" "telecos/wgpu_playground" sampleTask)
        ≠ CallResult.response n)
    ∧ (((create_issues_with_api clientReject "token0" "telecos/wgpu_playground"
            ([] ++ sampleTask :: [])).2.1.created
          = (create_issues_with_api clientReject "token0" "telecos/wgpu_playground" []).2.1.created
            ++ (create_issues_with_api clientReject "token0" "telecos/wgpu_playground" []).2.1.created)
        ∧ ((create_issues_with_api clientReject "token0" "telecos/wgpu_playground"
            ([] ++ sampleTask :: [])).2.1.failed
          = (create_issues_with_api clientReject "token0" "telecos/wgpu_playground" []).2.1.failed
            ++ sampleTask.id ::
              (create_issues_with_api clientReject "token0" "telecos/wgpu_playground" []).2.1.failed)) := by
  have hh : ∀ n, clientReject (issueRequest "token0" "telecos/wgpu_playground" sampleTask)
      ≠ CallResult.response n := by
    intro n
    simp [clientReject]
  exact ⟨hh, per_item_failure_recovered clientReject "token0" "telecos/wgpu_playground"
    sampleTask [] [] hh⟩

/-- C3: the batch submitter returns `true`, and the process exits with
status 0 rather than 1, exactly when the run report's `failed` sequence
is empty. -/
theorem batch_success_iff_failed_empty (client : Request → CallResult)
    (tasks : List Task) (args : Args) (tok : String)
    (h1 : args.exportArg = none) (h2 : args.dry_run = false)
    (h3 : args.token = some tok) :
    ((create_issues_with_api client tok args.repo tasks).1 = true
        ↔ (create_issues_with_api client tok args.repo tasks).2.1.failed = [])
    ∧ ((mainDispatch client args tasks).2 = 0
        ↔ (create_issues_with_api client tok args.repo tasks).2.1.failed = [])
    ∧ ((mainDispatch client args tasks).2 = 1
        ↔ ¬ (create_issues_with_api client tok args.repo tasks).2.1.failed = []) := by
  have key : (create_issues_with_api client tok args.repo tasks).1
      = ((create_issues_with_api client tok args.repo tasks).2.1.failed.length == 0) := rfl
  have hb : (create_issues_with_api client tok args.repo tasks).1 = true
      ↔ (create_issues_with_api client tok args.repo tasks).2.1.failed = [] := by
    rw [key]
    simp [List.length_eq_zero]
  have hm : mainDispatch client args tasks
      = ((create_issues_with_api client tok args.repo tasks).2.2,
         if (create_issues_with_api client tok args.repo tasks).1 then 0 else 1) := by
    unfold mainDispatch
    rw [h1, h2, h3]
    simp
  refine ⟨hb, ?_, ?_⟩
  · rw [hm]
    cases hbool : (create_issues_with_api client tok args.repo tasks).1 <;>
      simp [hbool] <;> simp [hbool] at hb <;> simp [hb]
  · rw [hm]
    cases hbool : (create_issues_with_api client tok args.repo tasks).1 <;>
      simp [hbool] <;> simp [hbool] at hb <;> simp [hb]

/-- Witness for C3: an always-accepting client on a one-task batch with
`--token` given and the default repository. -/
theorem batch_success_iff_failed_empty_witness :
    ((Args.mk (some "token0") "telecos/wgpu_playground" none false).exportArg = none)
    ∧ ((Args.mk (some "token0") "telecos/wgpu_playground" none false).dry_run = false)
    ∧ ((Args.mk (some "token0") "telecos/wgpu_playground" none false).token = some "token0")
    ∧ (((create_issues_with_api clientOk "token0"
            (Args.mk (some "token0") "telecos/wgpu_playground" none false).repo [sampleTask]).1 = true
          ↔ (create_issues_with_api clientOk "token0"
              (Args.mk (some "token0") "telecos/wgpu_playground" none false).repo [sampleTask]).2.1.failed = [])
        ∧ (((mainDispatch clientOk (Args.mk (some "token0") "telecos/wgpu_playground" none false) [sampleTask]).2 = 0
          ↔ (create_issues_with_api clientOk "token0"
              (Args.mk (some "token0") "telecos/wgpu_playground" none false).repo [sampleTask]).2.1.failed = [])
        ∧ ((mainDispatch clientOk (Args.mk (some "token0") "telecos/wgpu_playground" none false) [sampleTask]).2 = 1
          ↔ ¬ (create_issues_with_api clientOk "token0"
              (Args.mk (some "token0") "telecos/wgpu_playground" none false).repo [sampleTask]).2.1.failed = []))) :=
  ⟨rfl, rfl, rfl,
    batch_success_iff_failed_empty clientOk [sampleTask]
      (Args.mk (some "token0") "telecos/wgpu_playground" none false) "token0" rfl rfl rfl⟩

/-- C4 counterexample: `export_to_json` has no return statement, so its
value (modelled as the `Option Nat` component) is `none` — in
particular it is not the count of tasks written; the count only appears
in the printed message. -/
theorem export_no_return_value_counterexample :
    ((export_to_json "issues_data.json" TASKS).2 = none)
    ∧ ((export_to_json "issues_data.json" TASKS).2 ≠ some TASKS.length) :=
  ⟨rfl, by simp [export_to_json]⟩

/-- C4 (amended): export produces exactly one file write, of a single
structured document holding the repository identifier and one entry per
input task in input order, each entry an object with exactly the four
keys id/title/body/labels; the count of tasks written is printed, and
the function itself returns no value. -/
theorem export_writes_full_catalog (tasks : List Task) (filename : String) :
    ((export_to_json filename tasks).1
        = [Effect.fileWrite filename (export_doc tasks),
           Effect.printed ("Exported " ++ toString tasks.length ++ " tasks to " ++ filename)])
    ∧ (export_doc tasks
        = JsonValue.obj [("repository", JsonValue.str "telecos/wgpu_playground"),
                         ("tasks", JsonValue.arr (tasks.map exportEntry))])
    ∧ ((tasks.map exportEntry).length = tasks.length)
    ∧ (∀ t : Task, (exportEntry t).objKeys = ["id", "title", "body", "labels"])
    ∧ ((export_to_json filename tasks).2 = none) :=
  ⟨rfl, rfl, by simp, fun t => rfl, rfl⟩

/-- C5: every create-issue request the batch submitter issues is a POST
to `https://api.github.com/repos/{repo}/issues` whose JSON body is an
object with exactly the fields title/body/labels, holding the rendered
title, the rendered body and the record's labels; and the batch's trace
contains exactly these requests, one per task, in input order. -/
theorem create_request_shape (client : Request → CallResult)
    (token repo : String) (tasks : List Task) (task : Task) :
    ((issueRequest token repo task).method = "POST")
    ∧ ((issueRequest token repo task).url
        = "https://api.github.com/repos/" ++ repo ++ "/issues")
    ∧ ((issueRequest token repo task).data
        = JsonValue.obj [("title", JsonValue.str (task.id ++ ": " ++ task.title)),
                         ("body", JsonValue.str (create_issue_body task)),
                         ("labels", JsonValue.arr (task.labels.map JsonValue.str))])
    ∧ ((create_issues_with_api client token repo tasks).2.2.filterMap remoteOf
        = tasks.map (issueRequest token repo)) :=
  ⟨rfl, rfl, rfl, create_remote_calls client token repo tasks⟩

/-- C6: the rendered issue title — in the create-issue request body and
in each exported entry — is exactly the record's id, a colon and a
space, then the record's title. -/
theorem rendered_title_format (token repo : String) (task : Task) :
    ((issue_data task).get "title"
        = some (JsonValue.str (task.id ++ ": " ++ task.title)))
    ∧ ((issueRequest token repo task).data.get "title"
        = some (JsonValue.str (task.id ++ ": " ++ task.title)))
    ∧ ((exportEntry task).get "title"
        = some (JsonValue.str (task.id ++ ": " ++ task.title))) :=
  ⟨rfl, rfl, rfl⟩

/-- C7: the renderer is deterministic — its title, body and labels
output depends only on the record's four fields, so two records with
identical fields render byte-identically. -/
theorem render_deterministic (t1 t2 : Task) (h1 : t1.id = t2.id)
    (h2 : t1.title = t2.title) (h3 : t1.description = t2.description)
    (h4 : t1.labels = t2.labels) :
    (issue_data t1 = issue_data t2)
    ∧ (create_issue_body t1 = create_issue_body t2)
    ∧ (t1.labels = t2.labels) := by
  refine ⟨?_, ?_, h4⟩ <;> simp [issue_data, create_issue_body, h1, h2, h3, h4]

/-- Witness for C7: rendering the same catalog record twice. -/
theorem render_deterministic_witness :
    (sampleTask.id = sampleTask.id)
    ∧ (sampleTask.title = sampleTask.title)
    ∧ (sampleTask.description = sampleTask.description)
    ∧ (sampleTask.labels = sampleTask.labels)
    ∧ ((issue_data sampleTask = issue_data sampleTask)
        ∧ (create_issue_body sampleTask = create_issue_body sampleTask)
        ∧ (sampleTask.labels = sampleTask.labels)) :=
  ⟨rfl, rfl, rfl, rfl,
    render_deterministic sampleTask sampleTask rfl rfl rfl rfl⟩

/-- C8: in dry-run mode (no `--export`, `--dry-run` set) the dispatcher
prints the header and one preview line (planned title and labels) per
task, exits with status 0, and its trace holds printed lines only — no
remote call and no file write. -/
theorem dry_run_prints_only (client : Request → CallResult) (args : Args)
    (tasks : List Task) (h1 : args.exportArg = none) (h2 : args.dry_run = true) :
    (mainDispatch client args tasks
        = (Effect.printed ("Would create " ++ toString tasks.length ++ " issues:")
            :: tasks.map (fun t => Effect.printed (previewLine t)), 0))
    ∧ (∀ e ∈ (mainDispatch client args tasks).1, ∃ s, e = Effect.printed s) := by
  have hm : mainDispatch client args tasks
      = (Effect.printed ("Would create " ++ toString tasks.length ++ " issues:")
          :: tasks.map (fun t => Effect.printed (previewLine t)), 0) := by
    unfold mainDispatch
    rw [h1, h2]
    simp
  refine ⟨hm, ?_⟩
  rw [hm]
  intro e he
  simp only [List.mem_cons, List.mem_map] at he
  rcases he with he | ⟨t, _, he⟩
  · exact ⟨_, he⟩
  · exact ⟨_, he.symm⟩

/-- Witness for C8: dry-run over the whole catalog. -/
theorem dry_run_prints_only_witness :
    ((Args.mk none "telecos/wgpu_playground" none true).exportArg = none)
    ∧ ((Args.mk none "telecos/wgpu_playground" none true).dry_run = true)
    ∧ ((mainDispatch clientOk (Args.mk none "telecos/wgpu_playground" none true) TASKS
        = (Effect.printed ("Would create " ++ toString TASKS.length ++ " issues:")
            :: TASKS.map (fun t => Effect.printed (previewLine t)), 0))
      ∧ (∀ e ∈ (mainDispatch clientOk (Args.mk none "telecos/wgpu_playground" none true) TASKS).1,
          ∃ s, e = Effect.printed s)) :=
  ⟨rfl, rfl,
    dry_run_prints_only clientOk (Args.mk none "telecos/wgpu_playground" none true) TASKS rfl rfl⟩

/-- C9: the exported document's repository field is the constant
"telecos/wgpu_playground" — the export path never consults the `--repo`
argument, so changing it does not change the export run at all. -/
theorem export_repository_constant (client : Request → CallResult) (args : Args)
    (tasks : List Task) (f : String) (h : args.exportArg = some f) (r1 r2 : String) :
    ((export_doc tasks).get "repository"
        = some (JsonValue.str "telecos/wgpu_playground"))
    ∧ (Effect.fileWrite f (export_doc tasks) ∈ (mainDispatch client args tasks).1)
    ∧ (mainDispatch client (Args.mk args.token r1 args.exportArg args.dry_run) tasks
        = mainDispatch client (Args.mk args.token r2 args.exportArg args.dry_run) tasks) := by
  refine ⟨rfl, ?_, ?_⟩
  · unfold mainDispatch
    rw [h]
    simp [export_to_json]
  · simp [mainDispatch, h]

/-- Witness for C9: exporting one task with two different `--repo`
values. -/
theorem export_repository_constant_witness :
    ((Args.mk none "telecos/wgpu_playground" (some "out.json") false).exportArg = some "out.json")
    ∧ (((export_doc [sampleTask]).get "repository"
          = some (JsonValue.str "telecos/wgpu_playground"))
        ∧ (Effect.fileWrite "out.json" (export_doc [sampleTask])
            ∈ (mainDispatch clientOk
                (Args.mk none "telecos/wgpu_playground" (some "out.json") false) [sampleTask]).1)
        ∧ (mainDispatch clientOk
              (Args.mk (Args.mk none "telecos/wgpu_playground" (some "out.json") false).token
                "aaa/bbb"
                (Args.mk none "telecos/wgpu_playground" (some "out.json") false).exportArg
                (Args.mk none "telecos/wgpu_playground" (some "out.json") false).dry_run)
              [sampleTask]
            = mainDispatch clientOk
              (Args.mk (Args.mk none "telecos/wgpu_playground" (some "out.json") false).token
                "ccc/ddd"
                (Args.mk none "telecos/wgpu_playground" (some "out.json") false).exportArg
                (Args.mk none "telecos/wgpu_playground" (some "out.json") false).dry_run)
              [sampleTask])) :=
  ⟨rfl,
    export_repository_constant clientOk
      (Args.mk none "telecos/wgpu_playground" (some "out.json") false)
      [sampleTask] "out.json" rfl "aaa/bbb" "ccc/ddd"⟩

/-- C10: the rendered body never reads the record's title — records
agreeing on id, description and labels render the same body, whatever
their titles. -/
theorem body_independent_of_title (t1 t2 : Task) (h1 : t1.id = t2.id)
    (h3 : t1.description = t2.description) (h4 : t1.labels = t2.labels) :
    create_issue_body t1 = create_issue_body t2 := by
  simp [create_issue_body, h1, h3, h4]

/-- Witness for C10: a catalog record and a retitled copy render
identical bodies while their titles differ. -/
theorem body_independent_of_title_witness :
    (sampleTask.id = sampleTaskRetitled.id)
    ∧ (sampleTask.description = sampleTaskRetitled.description)
    ∧ (sampleTask.labels = sampleTaskRetitled.labels)
    ∧ (sampleTask.title ≠ sampleTaskRetitled.title)
    ∧ (create_issue_body sampleTask = create_issue_body sampleTaskRetitled) :=
  ⟨rfl, rfl, rfl, by decide,
    body_independent_of_title sampleTask sampleTaskRetitled rfl rfl rfl⟩

end CreateIssuesApi
